import Mathlib

/-!
# Verification of the myGym reward engine (`myGym/envs/rewards.py`)

Shallow embedding of the reward-shaping strategies of `rewards.py` and proofs
of the specification claims about them.

Conventions of the embedding:

* Observed 3D positions are exact rationals (`Pos := ℚ × ℚ × ℚ`); the float
  arithmetic of the source is modelled exactly over `ℚ`.
* The task collaborator's `calc_distance` lives outside `rewards.py`
  (module `myGym/envs/task.py` is not part of the sources in scope); per the
  spec it is the Euclidean distance.  Strategy functions therefore take the
  distance function `d : Pos → Pos → ℚ` as an explicit parameter, and concrete
  evaluations instantiate it with `dL1` on axis-aligned points, where the L1
  value coincides with the Euclidean one.
* Python `float` square roots (`math.sqrt`) are irrational in general, so the
  vector-normalisation kernel (`set_vector_len`, `count_vector_norm`) is
  embedded relationally over `ℝ` (`Real.sqrt`), while everything that the
  source computes with `+ - * /` and comparisons stays computable over `ℚ`.
* Python `ZeroDivisionError` / `exit()` paths are modelled with `Option`
  (`none` = the call fails / aborts).
* Environment episode flags (`episode_over`, `episode_failed`,
  `episode_info`) are modelled by the `EnvFlags` record.
-/

/-- A 3D position sample (one slice of the observation vector). -/
abbrev Pos := ℚ × ℚ × ℚ

/-- Rational 3D vector (exact embedding of a float triple). -/
abbrev Vec3Q := ℚ × ℚ × ℚ

/-- Real 3D vector, used for the results of sqrt-normalising operations. -/
abbrev Vec3R := ℝ × ℝ × ℝ

/-- `np.dot` on rational triples. -/
def dotQ (v w : Vec3Q) : ℚ :=
  v.1 * w.1 + v.2.1 * w.2.1 + v.2.2 * w.2.2

/-- `np.dot` on real triples. -/
def dotR (v w : Vec3R) : ℝ :=
  v.1 * w.1 + v.2.1 * w.2.1 + v.2.2 * w.2.2

/-- Coercion of a rational vector into the reals, componentwise. -/
def toR (v : Vec3Q) : Vec3R := ((v.1 : ℝ), (v.2.1 : ℝ), (v.2.2 : ℝ))

/-- `multiply_vector` of the source (scalar times vector, componentwise),
over the reals. -/
def smulR (c : ℝ) (v : Vec3R) : Vec3R := (c * v.1, c * v.2.1, c * v.2.2)

/-- Absolute value on `ℚ`, written with an explicit test so that concrete
evaluations reduce. -/
def qabs (q : ℚ) : ℚ := if q < 0 then -q else q

/-- Concrete distance function used to evaluate theorems on concrete inputs.
On pairs of points that differ in at most one coordinate — the only pairs the
concrete runs below ever measure — it agrees with the Euclidean
`task.calc_distance` of the spec. -/
def dL1 (p q : Pos) : ℚ :=
  qabs (p.1 - q.1) + qabs (p.2.1 - q.2.1) + qabs (p.2.2 - q.2.2)

/-- Python's `round(x, k)` (modelled with round-half-up; the source only
feeds it measured distances, and no claim depends on the half-way tie rule). -/
def roundTo (k : ℕ) (q : ℚ) : ℚ :=
  (round (q * 10 ^ k) : ℤ) / 10 ^ k

/-- The environment collaborator's episode-outcome fields. -/
structure EnvFlags where
  episode_over : Bool := false
  episode_failed : Bool := false
  episode_info : String := ""
deriving Repr, DecidableEq

/-! ## Degenerate-triangle correction (`PokeReward.get_distance_from_poke_line`)

The source, lines 529–536:
```
while b+c <= a:
    c += 0.00001
while a+c <= b:
    c += 0.00001
while a+b <= c:
    b += 0.00001
```
Each loop is embedded as a total recursive function; totality (the
termination part of claim C4) is established by the decreasing ceiling
measure. -/

/-- First while-loop: bump `c` by `0.00001` until `b + c > a`. -/
def nudge1 (a b c : ℚ) : ℚ :=
  if b + c ≤ a then nudge1 a b (c + 1/100000) else c
termination_by (⌈(a - b - c) * 100000⌉ + 1).toNat
decreasing_by
  have hy : (0:ℚ) ≤ (a - b - c) * 100000 := by
    have : 0 ≤ a - b - c := by linarith
    positivity
  have h1 : (a - b - (c + 1/100000)) * 100000 = (a - b - c) * 100000 - 1 := by
    ring
  rw [h1]
  have h2 : ⌈(a - b - c) * 100000 - 1⌉ = ⌈(a - b - c) * 100000⌉ - 1 := by
    exact_mod_cast Int.ceil_sub_int ((a - b - c) * 100000) 1
  rw [h2]
  have h3 : (0:ℤ) ≤ ⌈(a - b - c) * 100000⌉ := Int.ceil_nonneg hy
  omega

/-- Second while-loop: bump `c` by `0.00001` until `a + c > b`. -/
def nudge2 (a b c : ℚ) : ℚ :=
  if a + c ≤ b then nudge2 a b (c + 1/100000) else c
termination_by (⌈(b - a - c) * 100000⌉ + 1).toNat
decreasing_by
  have hy : (0:ℚ) ≤ (b - a - c) * 100000 := by
    have : 0 ≤ b - a - c := by linarith
    positivity
  have h1 : (b - a - (c + 1/100000)) * 100000 = (b - a - c) * 100000 - 1 := by
    ring
  rw [h1]
  have h2 : ⌈(b - a - c) * 100000 - 1⌉ = ⌈(b - a - c) * 100000⌉ - 1 := by
    exact_mod_cast Int.ceil_sub_int ((b - a - c) * 100000) 1
  rw [h2]
  have h3 : (0:ℤ) ≤ ⌈(b - a - c) * 100000⌉ := Int.ceil_nonneg hy
  omega

/-- Third while-loop: bump `b` by `0.00001` until `a + b > c`. -/
def nudge3 (a b c : ℚ) : ℚ :=
  if a + b ≤ c then nudge3 a (b + 1/100000) c else b
termination_by (⌈(c - a - b) * 100000⌉ + 1).toNat
decreasing_by
  have hy : (0:ℚ) ≤ (c - a - b) * 100000 := by
    have : 0 ≤ c - a - b := by linarith
    positivity
  have h1 : (c - a - (b + 1/100000)) * 100000 = (c - a - b) * 100000 - 1 := by
    ring
  rw [h1]
  have h2 : ⌈(c - a - b) * 100000 - 1⌉ = ⌈(c - a - b) * 100000⌉ - 1 := by
    exact_mod_cast Int.ceil_sub_int ((c - a - b) * 100000) 1
  rw [h2]
  have h3 : (0:ℤ) ≤ ⌈(c - a - b) * 100000⌉ := Int.ceil_nonneg hy
  omega

/-- The full correction sequence of `get_distance_from_poke_line`: the three
while-loops run in order, the first two updating `c`, the third updating `b`;
the result is the side triple `(a, b, c)` the Heron computation then uses. -/
def triangle_fix (a b c : ℚ) : ℚ × ℚ × ℚ :=
  let c1 := nudge1 a b c
  let c2 := nudge2 a b c1
  let b3 := nudge3 a b c2
  (a, b3, c2)

/-! ## `DistanceReward` (single-pair distance-delta strategy)

State of `DistanceReward`: the two previous positions.  In the source they
are two separate fields that are always either both `None` (after
`__init__`/`reset`) or both set (the guard in `calc_dist_diff` tests
`prev_obj1_position is None and prev_obj2_position is None`, and every write
sets both), so they are modelled as one optional pair. -/
structure DistRState where
  prev : Option (Pos × Pos)
deriving Repr, DecidableEq

namespace DistanceReward

/-- `DistanceReward.calc_dist_diff` (rewards.py lines 105-126): on the first
call of an episode the previous positions are initialized to the current
ones; the reward is `(prev_diff - current_diff) / prev_diff` and the previous
positions are then updated to the current ones.  `d` is the external
`task.calc_distance`. -/
def calc_dist_diff (d : Pos → Pos → ℚ) (s : DistRState) (o1 o2 : Pos) :
    ℚ × DistRState :=
  let pp := s.prev.getD (o1, o2)
  let prev_diff := d pp.1 pp.2
  let current_diff := d o1 o2
  let norm_diff := (prev_diff - current_diff) / prev_diff
  (norm_diff, ⟨some (o1, o2)⟩)

end DistanceReward

/-! ## `ComplexDistanceReward` (three-object distance-delta strategy) -/

/-- State of `ComplexDistanceReward`: the three previous positions (always
all `None` or all set, modelled as one optional triple). -/
structure CplxDistRState where
  prev : Option (Pos × Pos × Pos)
deriving Repr, DecidableEq

namespace ComplexDistanceReward

/-- `ComplexDistanceReward.calc_dist_diff` (rewards.py lines 175-206): sums
the three pairwise normalized distance deltas, the objects-1/2 pair weighted
by 10. -/
def calc_dist_diff (d : Pos → Pos → ℚ) (s : CplxDistRState)
    (o1 o2 o3 : Pos) : ℚ × CplxDistRState :=
  let pp := s.prev.getD (o1, o2, o3)
  let prev_diff_12 := d pp.1 pp.2.1
  let current_diff_12 := d o1 o2
  let prev_diff_13 := d pp.1 pp.2.2
  let current_diff_13 := d o1 o3
  let prev_diff_23 := d pp.2.1 pp.2.2
  let current_diff_23 := d o2 o3
  let norm_diff := (prev_diff_13 - current_diff_13) / prev_diff_13 +
    (prev_diff_23 - current_diff_23) / prev_diff_23 +
    10 * (prev_diff_12 - current_diff_12) / prev_diff_12
  (norm_diff, ⟨some (o1, o2, o3)⟩)

end ComplexDistanceReward

/-! ## `DualPoke` (aim / poke phase-composite strategy)

The geometric inputs `aimer_dist` (distance of the gripper from the aim
point computed through the external `Vector` helper class) and the `is_aimed`
predicate result are taken as parameters: both are produced from the
observation before the branching logic under scrutiny runs, and the source
computes them through `myGym/utils/vector.py`, which is outside the sources
in scope.  `object_moved` is the external `task.check_object_moved` result. -/
structure DPState where
  prev_poker_position : Option Pos
  touched : Bool
  last_aimer_dist : ℚ
  last_poker_dist : ℚ
  aimer_reward : ℚ
  poker_reward : ℚ
  last_owner : Option ℕ
deriving Repr, DecidableEq

namespace DualPoke

/-- The reset / freshly-constructed state (rewards.py lines 907-936):
note `last_aimer_dist` and `last_poker_dist` are reset to `0`, not `None`,
so the `is None` disjuncts in `aimer_compute`/`poker_compute` are dead. -/
def resetState : DPState :=
  ⟨none, false, 0, 0, 0, 0, none⟩

/-- `DualPoke.is_poker_moving` (lines 1086-1093): compares the previous and
current poker positions rounded to 4 decimals; any motion latches the sticky
`touched` flag.  The previous position is always set by `get_positions`
before this runs, hence the `getD`. -/
def is_poker_moving (s : DPState) (poker : Pos) : Bool × DPState :=
  let pp := s.prev_poker_position.getD poker
  if roundTo 4 pp.1 = roundTo 4 poker.1 ∧ roundTo 4 pp.2.1 = roundTo 4 poker.2.1 ∧
      roundTo 4 pp.2.2 = roundTo 4 poker.2.2 then
    (false, s)
  else
    (true, { s with touched := true })

/-- `DualPoke.aimer_compute` (lines 961-985).  The owner id of the aim phase
is 0; `self.last_owner != 0` re-baselines `last_aimer_dist`.  The settle
window line `if episode_steps > 25: self.tuched = ...` assigns to a
misspelled attribute, so only the `touched := true` side effect inside
`is_poker_moving` persists. -/
def aimer_compute (s : DPState) (aimer_dist : ℚ) (poker : Pos)
    (episode_steps : ℕ) : ℚ × DPState :=
  let lad := if s.last_owner ≠ some 0 then aimer_dist else s.last_aimer_dist
  let reward := lad - aimer_dist
  let s := { s with aimer_reward := s.aimer_reward + reward,
                    last_aimer_dist := aimer_dist }
  let s := if episode_steps > 25 then (is_poker_moving s poker).2 else s
  (reward, { s with prev_poker_position := some poker })

/-- `DualPoke.poker_compute` (lines 987-1016).  The owner id of the poke
phase is 1; `self.last_owner != 1` re-baselines `last_poker_dist`.  When the
external `check_object_moved` fires, the episode is failed and the reward is
overridden to `-5`.  After the state update the source re-runs
`is_poker_moving` on the same poker position it just stored, so the motion
test there is always false and a latched `touched` ends the episode. -/
def poker_compute (d : Pos → Pos → ℚ) (s : DPState) (f : EnvFlags)
    (goal poker : Pos) (object_moved : Bool) : ℚ × DPState × EnvFlags :=
  let poker_dist := roundTo 5 (d poker goal)
  let lpd := if s.last_owner ≠ some 1 then poker_dist else s.last_poker_dist
  let reward0 := 5 * (lpd - poker_dist)
  let reward := if object_moved then -5 else reward0
  let f :=
    if object_moved then
      { f with episode_over := true, episode_failed := true,
               episode_info := "too strong poke" }
    else f
  let s := { s with poker_reward := s.poker_reward + reward,
                    last_poker_dist := poker_dist,
                    prev_poker_position := some poker }
  let moving := (is_poker_moving s poker).1
  let s := (is_poker_moving s poker).2
  let f :=
    if s.touched ∧ ¬moving then
      if s.last_poker_dist > 1/10 then
        { f with episode_over := true, episode_failed := true,
                 episode_info := "bad poke" }
      else
        { f with episode_over := true, episode_info := "good poke" }
    else f
  (reward, s, f)

/-- `DualPoke.decide` (lines 1046-1061): owner 1 (poke) when aimed or
touched, owner 0 (aim) when neither; the `else` branch (which only prints
and falls through, leaving `owner` unbound) is modelled as `none`. -/
def decide (touched : Bool) (is_aimed : Bool) : Option ℕ :=
  if is_aimed || touched then some 1
  else if !is_aimed && !touched then some 0
  else none

/-- `DualPoke.compute` (lines 938-959): dispatches on `decide`; any other
owner value would hit `exit("decision error")`, modelled as `none`.
`get_positions` initializes `prev_poker_position` on the first call. -/
def compute (d : Pos → Pos → ℚ) (s : DPState) (f : EnvFlags)
    (goal poker : Pos) (is_aimed : Bool) (aimer_dist : ℚ)
    (episode_steps : ℕ) (object_moved : Bool) :
    Option (ℚ × DPState × EnvFlags) :=
  let s := { s with
    prev_poker_position := some (s.prev_poker_position.getD poker) }
  match decide s.touched is_aimed with
  | some 0 =>
    let (r, s) := aimer_compute s aimer_dist poker episode_steps
    some (r, { s with last_owner := some 0 }, f)
  | some 1 =>
    let (r, s, f) := poker_compute d s f goal poker object_moved
    some (r, { s with last_owner := some 1 }, f)
  | _ => none

end DualPoke

/-! ## `PickAndPlace` (find / lift / move / place phase-composite strategy)

Shared state record for `PickAndPlace` (phases 0 = find, 1 = lift, 2 = move,
3 = place) and `ConsequentialPickAndPlace` (phases 0 = find, 1 = move,
2 = place), whose `__init__`/`reset` bodies are identical (the extra
`self.owner` field of the consequential variant is rewritten to 0 at the
start of every `decide`, so it carries no inter-step information). -/
structure PnPState where
  last_owner : Option ℕ
  object_before_lift : Option Pos
  lifted : Bool
  grip : Bool
  last_height : Option ℚ
  last_find_dist : Option ℚ
  last_lift_dist : Option ℚ
  last_move_dist : Option ℚ
  last_place_dist : Option ℚ
  finder_reward : ℚ
  lifter_reward : ℚ
  mover_reward : ℚ
  placer_reward : ℚ
deriving Repr, DecidableEq

/-- The reset / freshly-constructed pick-and-place state. -/
def PnPState.reset : PnPState :=
  ⟨none, none, false, false, none, none, none, none, none, 0, 0, 0, 0⟩

namespace PickAndPlace

/-- `PickAndPlace.find_compute` (lines 1203-1217): baseline re-set when the
stored `last_find_dist` is unset or `last_owner != 0`. -/
def find_compute (d : Pos → Pos → ℚ) (s : PnPState) (gripper object : Pos) :
    ℚ × PnPState :=
  let dist := d gripper object
  let lfd := s.last_find_dist.getD dist
  let lfd := if s.last_owner ≠ some 0 then dist else lfd
  let reward := lfd - dist
  (reward, { s with last_find_dist := some dist,
                    finder_reward := s.finder_reward + reward })

/-- `PickAndPlace.lift_compute` (lines 1219-1238): on entry
(`last_owner != 1`) both the before-lift reference and the baseline are
re-set to the current values. -/
def lift_compute (d : Pos → Pos → ℚ) (s : PnPState) (object : Pos) :
    ℚ × PnPState :=
  let obl := s.object_before_lift.getD object
  let obl := if s.last_owner ≠ some 1 then object else obl
  let dist := d object obl
  let lld := s.last_lift_dist.getD dist
  let lld := if s.last_owner ≠ some 1 then dist else lld
  let reward := lld - dist
  (reward, { s with object_before_lift := some obl,
                    last_lift_dist := some dist,
                    lifter_reward := s.lifter_reward + reward })

/-- `PickAndPlace.move_compute` (lines 1240-1261): planar (XY) distance plus
absolute height change; baseline re-set when unset or `last_owner != 2`. -/
def move_compute (d : Pos → Pos → ℚ) (s : PnPState) (object goal : Pos) :
    ℚ × PnPState :=
  let object_XY : Pos := (object.1, object.2.1, 0)
  let goal_XY : Pos := (goal.1, goal.2.1, 0)
  let height := object.2.2
  let dist := d object_XY goal_XY
  let lmd := s.last_move_dist.getD dist
  let lh := s.last_height.getD height
  let lmd := if s.last_owner ≠ some 2 then dist else lmd
  let lh := if s.last_owner ≠ some 2 then height else lh
  let reward := (lmd - dist) + |lh - height|
  (reward, { s with last_move_dist := some dist, last_height := some height,
                    mover_reward := s.mover_reward + reward })

/-- `PickAndPlace.place_compute` (lines 1263-1281): baseline re-set when
unset or `last_owner != 3`; when the strategy was already in the place phase
on the previous step (`last_owner == 3`) and the distance drops below 0.05,
the episode ends successfully ("Object was placed to desired position"),
without touching `episode_failed`. -/
def place_compute (d : Pos → Pos → ℚ) (s : PnPState) (f : EnvFlags)
    (object goal : Pos) : ℚ × PnPState × EnvFlags :=
  let dist := d object goal
  let lpd := s.last_place_dist.getD dist
  let lpd := if s.last_owner ≠ some 3 then dist else lpd
  let reward := lpd - dist
  let f :=
    if s.last_owner = some 3 ∧ dist < 1/20 then
      { f with episode_over := true,
               episode_info := "Object was placed to desired position" }
    else f
  (reward, { s with last_place_dist := some dist,
                    placer_reward := s.placer_reward + reward }, f)

end PickAndPlace

/-! ## `ConsequentialPickAndPlace` (find / move / place, monotonic intent)

Its `find_compute`, `move_compute` and `place_compute` (lines 1433-1511) are
verbatim copies of the `PickAndPlace` ones — including the baseline guards
`last_owner != 2` (move) and `last_owner != 3` (place), although in this
class move is owner 1 and place is owner 2 — except that the success branch
of `place_compute` additionally calls `release_object`. -/
namespace ConsequentialPickAndPlace

/-- `ConsequentialPickAndPlace.find_compute` (lines 1433-1447). -/
def find_compute (d : Pos → Pos → ℚ) (s : PnPState) (gripper object : Pos) :
    ℚ × PnPState :=
  let dist := d gripper object
  let lfd := s.last_find_dist.getD dist
  let lfd := if s.last_owner ≠ some 0 then dist else lfd
  let reward := lfd - dist
  (reward, { s with last_find_dist := some dist,
                    finder_reward := s.finder_reward + reward })

/-- `ConsequentialPickAndPlace.move_compute` (lines 1470-1490).  NOTE: the
guard is `last_owner != 2`, copied from the four-phase class, although this
class dispatches move at owner 1 and place at owner 2. -/
def move_compute (d : Pos → Pos → ℚ) (s : PnPState) (object goal : Pos) :
    ℚ × PnPState :=
  let object_XY : Pos := (object.1, object.2.1, 0)
  let goal_XY : Pos := (goal.1, goal.2.1, 0)
  let height := object.2.2
  let dist := d object_XY goal_XY
  let lmd := s.last_move_dist.getD dist
  let lh := s.last_height.getD height
  let lmd := if s.last_owner ≠ some 2 then dist else lmd
  let lh := if s.last_owner ≠ some 2 then height else lh
  let reward := (lmd - dist) + |lh - height|
  (reward, { s with last_move_dist := some dist, last_height := some height,
                    mover_reward := s.mover_reward + reward })

/-- `ConsequentialPickAndPlace.place_compute` (lines 1492-1511).  NOTE: the
success branch requires `last_owner == 3`, copied from the four-phase class,
although this class never produces an owner above 2; the release and
episode-over effects are therefore dead code here. -/
def place_compute (d : Pos → Pos → ℚ) (s : PnPState) (f : EnvFlags)
    (object goal : Pos) : ℚ × PnPState × EnvFlags :=
  let dist := d object goal
  let lpd := s.last_place_dist.getD dist
  let lpd := if s.last_owner ≠ some 3 then dist else lpd
  let reward := lpd - dist
  let (s, f) :=
    if s.last_owner = some 3 ∧ dist < 1/20 then
      ({ s with grip := false },
       { f with episode_over := true,
                episode_info := "Object was placed to desired position" })
    else (s, f)
  (reward, { s with last_place_dist := some dist,
                    placer_reward := s.placer_reward + reward }, f)

/-- `ConsequentialPickAndPlace.gripper_reached_object` (lines 1536-1545):
true while a grip constraint exists; otherwise true only when the distance
drops below 0.1, which also creates the grip constraint (`grip_object`). -/
def gripper_reached_object (d : Pos → Pos → ℚ) (s : PnPState)
    (gripper object : Pos) : Bool × PnPState :=
  let _distance := d gripper object
  if s.grip then (true, s)
  else if d gripper object < 1/10 then (true, { s with grip := true })
  else (false, s)

/-- `ConsequentialPickAndPlace.object_above_goal` (lines 1563-1570): planar
XY distance below 0.1.  Unlike the `PickAndPlace` version it does not
release the grip. -/
def object_above_goal (d : Pos → Pos → ℚ) (object goal : Pos) : Bool :=
  d (goal.1, goal.2.1, 0) (object.1, object.2.1, 0) < 1/10

/-- `ConsequentialPickAndPlace.decide` (lines 1513-1523): `self.owner` is
re-set to 0 every call, bumped to 1 when the gripper reached the object and
to 2 when additionally the object is above the goal. -/
def decide (d : Pos → Pos → ℚ) (s : PnPState) (goal object gripper : Pos) :
    ℕ × PnPState :=
  let s := { s with
    object_before_lift := some (s.object_before_lift.getD object) }
  let owner := 0
  let (reached, s) := gripper_reached_object d s gripper object
  let owner := if owner = 0 ∧ reached then owner + 1 else owner
  let owner := if owner = 1 ∧ object_above_goal d object goal then owner + 1
               else owner
  (owner, s)

/-- `ConsequentialPickAndPlace.compute` (lines 1408-1431): dispatches owner
0 to `find_compute`, 1 to `move_compute`, 2 to `place_compute`; any other
value would hit `exit("decision error")` (`none`).  The external
`task.check_pnp_threshold` call is modelled as flag-preserving.  -/
def compute (d : Pos → Pos → ℚ) (s : PnPState) (f : EnvFlags)
    (goal object gripper : Pos) : Option (ℚ × PnPState × EnvFlags) :=
  let (owner, s) := decide d s goal object gripper
  let s := { s with
    object_before_lift := some (s.object_before_lift.getD object) }
  if owner = 0 then
    let (r, s) := find_compute d s gripper object
    some (r, { s with last_owner := some owner }, f)
  else if owner = 1 then
    let (r, s) := move_compute d s object goal
    some (r, { s with last_owner := some owner }, f)
  else if owner = 2 then
    let (r, s, f) := place_compute d s f object goal
    some (r, { s with last_owner := some owner }, f)
  else none

/-- Run `compute` over a list of observations `(goal, object, gripper)`,
collecting the per-step reward and the owner recorded in `last_owner`. -/
def trace (d : Pos → Pos → ℚ) (s : PnPState) (f : EnvFlags) :
    List (Pos × Pos × Pos) → List (ℚ × Option ℕ)
  | [] => []
  | (goal, object, gripper) :: rest =>
    match compute d s f goal object gripper with
    | some (r, s, f) => (r, s.last_owner) :: trace d s f rest
    | none => []

end ConsequentialPickAndPlace

/-- The failing state for claim C8: a `ConsequentialPickAndPlace` episode
that is already in the terminal place phase (previous owner 2, object
gripped and hovering 0.01 above the goal). -/
def placePhaseStuckState : PnPState :=
  { PnPState.reset with
    last_owner := some 2
    grip := true
    object_before_lift := some (0, 0, 1/100)
    last_move_dist := some 5
    last_height := some (1/100)
    last_place_dist := some (1/100) }

/-! ## `VectorReward` (force-field alignment strategy)

The per-link contact query results (one entry per robot link, `true` when
`p.getContactPoints` returned a nonempty tuple for that link) are an
external input, modelled as a `List Bool`.  The result of the scan loop of
`VectorReward.compute` (lines 710-726). -/
structure ContactScan where
  reward : ℚ
  touches : ℕ
  flags : EnvFlags
  returned : Bool
deriving Repr, DecidableEq

/-- The contact-scan loop of `VectorReward.compute` (lines 710-726): for
every touching link the reward is overridden to `-5` and the persistent
`touches` counter is incremented; as soon as the counter exceeds 20 the
episode is terminated as a failure ("Arm crushed the distractor") and
`compute` returns immediately (`returned = true`).  The source lines that
clamp `env.episode_reward` and assign the strategy's own `episode_number`
touch no state read anywhere in scope and are omitted. -/
def contact_loop : List Bool → ℚ → ℕ → EnvFlags → ContactScan
  | [], reward, touches, f => ⟨reward, touches, f, false⟩
  | p :: rest, reward, touches, f =>
    if p then
      let touches := touches + 1
      if touches > 20 then
        ⟨-5, touches,
         { f with episode_info := "Arm crushed the distractor",
                  episode_over := true, episode_failed := true }, true⟩
      else contact_loop rest (-5) touches f
    else contact_loop rest reward touches f

/-! ## Vector-normalisation kernel (`set_vector_len`, `count_vector_norm`)

`PokeReward.set_vector_len` (lines 473-477) and the identical
`VectorReward.set_vector_len` (lines 888-892) divide by
`count_vector_norm(vector) = math.sqrt(np.dot(vector, vector))` (lines
505-506 / 868-869).  The norm is irrational in general, so the two
functions are embedded as relations: `count_vector_norm_is v n` states that
`n` is the computed norm, and `set_vector_len v L res` states that the call
on `v` and `L` produces `res` — `none` models the `ZeroDivisionError` that
Python raises on `1/norm` when the norm is `0.0` (equivalently, when
`np.dot(v, v) == 0`). -/

/-- `count_vector_norm` (rewards.py lines 505-506): `n` is
`math.sqrt(np.dot(v, v))`. -/
def count_vector_norm_is (v : Vec3Q) (n : ℝ) : Prop :=
  n = Real.sqrt ((dotQ v v : ℚ) : ℝ)

/-- `set_vector_len` (rewards.py lines 473-477): rescale `v` to length `L`
by `multiply_vector(multiply_vector(v, 1/norm), L)`; fails
(`ZeroDivisionError`, modelled `none`) when the norm is zero. -/
def set_vector_len (v : Vec3Q) (L : ℚ) (res : Option Vec3R) : Prop :=
  if dotQ v v = 0 then res = none
  else ∃ n : ℝ, count_vector_norm_is v n ∧
    res = some (smulR (L : ℝ) (smulR (1 / n) (toR v)))

/-- The final reward of `VectorReward.compute` (lines 708-726 and 786-805)
as a relation: after the contact scan (which may override the reward with
`-5` and return early), the cosine term
`np.dot(set_vector_len(optimal, 1), set_vector_len(real, 1))` is added when
the real displacement has nonzero norm, and `0` is added when it is zero.
The `optimal` vector is the force-field composition built through the
external `Vector` class (`myGym/utils/vector.py`, outside the sources in
scope); the claim constrains the reward as a function of `optimal`, so it
enters here as an input. -/
def vectorReward_reward (contacts : List Bool) (touches : ℕ) (f : EnvFlags)
    (optimal real : Vec3Q) (x : ℝ) : Prop :=
  let scan := contact_loop contacts 0 touches f
  if scan.returned then x = (scan.reward : ℝ)
  else if dotQ real real = 0 then x = (scan.reward : ℝ) + 0
  else ∃ uo ur : Vec3R, set_vector_len optimal 1 (some uo) ∧
    set_vector_len real 1 (some ur) ∧ x = (scan.reward : ℝ) + dotR uo ur

/-! ## Theorems -/
theorem nudge1_spec (a b c : ℚ) : a < b + nudge1 a b c ∧ c ≤ nudge1 a b c := by
  induction c using nudge1.induct a b with
  | case1 x h ih =>
    rw [nudge1, if_pos h]
    exact ⟨ih.1, by linarith [ih.2]⟩
  | case2 x h =>
    rw [nudge1, if_neg h]
    exact ⟨by linarith [not_le.mp h], le_refl x⟩

theorem nudge2_spec (a b c : ℚ) : b < a + nudge2 a b c ∧ c ≤ nudge2 a b c := by
  induction c using nudge2.induct a b with
  | case1 x h ih =>
    rw [nudge2, if_pos h]
    exact ⟨ih.1, by linarith [ih.2]⟩
  | case2 x h =>
    rw [nudge2, if_neg h]
    exact ⟨by linarith [not_le.mp h], le_refl x⟩

theorem nudge3_spec (a b c : ℚ) : c < a + nudge3 a b c ∧ b ≤ nudge3 a b c := by
  induction b, c using nudge3.induct a with
  | case1 x y h ih =>
    rw [nudge3, if_pos h]
    exact ⟨ih.1, by linarith [ih.2]⟩
  | case2 x y h =>
    rw [nudge3, if_neg h]
    exact ⟨by linarith [not_le.mp h], le_refl x⟩

/-- Evaluation lemma: the first loop on the all-zero triple bumps `c` once. -/
theorem nudge1_zero : nudge1 0 0 0 = 1/100000 := by
  rw [nudge1]
  norm_num
  rw [nudge1]
  norm_num

/-- Evaluation lemma: the second loop does not fire on `(0, 0, 1/100000)`. -/
theorem nudge2_zero : nudge2 0 0 (1/100000) = 1/100000 := by
  rw [nudge2]
  norm_num

/-- Evaluation lemma: the third loop bumps `b` twice on `(0, 0, 1/100000)`. -/
theorem nudge3_zero : nudge3 0 0 (1/100000) = 2/100000 := by
  rw [nudge3]
  norm_num
  rw [nudge3]
  norm_num
  rw [nudge3]
  norm_num

/-- C4 (counterexample): on the non-negative input triple
`(a, b, c) = (0, 0, 0)` the correction loops terminate with the triple
`(0, 2/100000, 1/100000)`, and the third strict triangle inequality
`a + c > b` does NOT hold on the result, refuting the claim that all three
inequalities hold on termination. -/
theorem C4_counterexample :
    triangle_fix 0 0 0 = (0, 2/100000, 1/100000) ∧
    ¬((triangle_fix 0 0 0).1 + (triangle_fix 0 0 0).2.2 >
      (triangle_fix 0 0 0).2.1) := by
  have h : triangle_fix 0 0 0 = (0, 2/100000, 1/100000) := by
    simp only [triangle_fix, nudge1_zero, nudge2_zero, nudge3_zero]
  refine ⟨h, ?_⟩
  rw [h]
  norm_num

/-- C4 (amended): for every input triple the sequence of while-loops of
`get_distance_from_poke_line` terminates (the functions `nudge1`, `nudge2`,
`nudge3` are total), and on termination the two triangle inequalities
`a + b > c` and `b + c > a` hold; the third inequality `a + c > b` is not
guaranteed, because the third loop raises `b` after the second loop has
already fixed `c` (see `C4_counterexample`). -/
theorem C4_triangle_fix_amended (a b c : ℚ) :
    (triangle_fix a b c).1 + (triangle_fix a b c).2.1 >
      (triangle_fix a b c).2.2 ∧
    (triangle_fix a b c).2.1 + (triangle_fix a b c).2.2 >
      (triangle_fix a b c).1 := by
  unfold triangle_fix
  have h1 := nudge1_spec a b c
  have h2 := nudge2_spec a b (nudge1 a b c)
  have h3 := nudge3_spec a b (nudge2 a b (nudge1 a b c))
  constructor
  · exact h3.1
  · have hc : nudge1 a b c ≤ nudge2 a b (nudge1 a b c) := h2.2
    have hb : b ≤ nudge3 a b (nudge2 a b (nudge1 a b c)) := h3.2
    have := h1.1
    linarith

/-- C1: for the single-pair `DistanceReward` strategy, with `d` the task
collaborator's distance: (i) on the first call after `reset` (state `none`)
the previous distance is initialized to the current one and the reward is 0;
(ii) on every later call the reward is `(prevDist - currDist) / prevDist`
where `prevDist` is the distance of the previously stored pair;
(iii) in particular `prevDist = 2`, `currDist = 1` gives reward `1/2`;
(iv) the stored pair is always updated to the current positions.
(The nonzero-divisor hypotheses reflect that Python would raise
`ZeroDivisionError` rather than return a value when `prevDist == 0`.) -/
theorem C1_calc_dist_diff (d : Pos → Pos → ℚ) (o1 o2 p1 p2 : Pos)
    (s : DistRState)
    (h0 : d o1 o2 ≠ 0) (h1 : d p1 p2 ≠ 0) :
    (DistanceReward.calc_dist_diff d ⟨none⟩ o1 o2).1 = 0 ∧
    (DistanceReward.calc_dist_diff d ⟨some (p1, p2)⟩ o1 o2).1 =
      (d p1 p2 - d o1 o2) / d p1 p2 ∧
    (d p1 p2 = 2 → d o1 o2 = 1 →
      (DistanceReward.calc_dist_diff d ⟨some (p1, p2)⟩ o1 o2).1 = 1/2) ∧
    (DistanceReward.calc_dist_diff d s o1 o2).2 = ⟨some (o1, o2)⟩ := by
  refine ⟨?_, rfl, ?_, rfl⟩
  · simp [DistanceReward.calc_dist_diff]
  · intro hp hc
    simp [DistanceReward.calc_dist_diff, hp, hc]
    norm_num

/-- C1 witness: a concrete first call returns 0, and a concrete later call
with previous distance 2 and current distance 1 returns `1/2`. -/
theorem C1_witness :
    (DistanceReward.calc_dist_diff dL1 ⟨none⟩ (0, 0, 0) (1, 0, 0)).1 = 0 ∧
    (DistanceReward.calc_dist_diff dL1 ⟨some ((0, 0, 0), (2, 0, 0))⟩
      (0, 0, 0) (1, 0, 0)).1 = 1/2 := by
  have h := C1_calc_dist_diff dL1 (0, 0, 0) (1, 0, 0) (0, 0, 0) (2, 0, 0)
    ⟨none⟩ (by norm_num [dL1, qabs]) (by norm_num [dL1, qabs])
  exact ⟨h.1, h.2.2.1 (by norm_num [dL1, qabs]) (by norm_num [dL1, qabs])⟩

/-- C6: `ComplexDistanceReward.calc_dist_diff` returns the sum of the three
pairwise normalized deltas `(prev - curr)/prev`, the object-1/object-2 pair
weighted 10 times, the 1-3 and 2-3 pairs weighted once; the scenario
`prev12 = 2, curr12 = 1, prev13 = 4, curr13 = 2, prev23 = 4, curr23 = 2`
yields reward `0.5 + 0.5 + 10 * 0.5 = 6`. -/
theorem C6_calc_dist_diff (d : Pos → Pos → ℚ) (o1 o2 o3 p1 p2 p3 : Pos)
    (h12 : d p1 p2 ≠ 0) (h13 : d p1 p3 ≠ 0) (h23 : d p2 p3 ≠ 0) :
    (ComplexDistanceReward.calc_dist_diff d ⟨some (p1, p2, p3)⟩
        o1 o2 o3).1 =
      (d p1 p3 - d o1 o3) / d p1 p3 + (d p2 p3 - d o2 o3) / d p2 p3 +
        10 * (d p1 p2 - d o1 o2) / d p1 p2 ∧
    (d p1 p2 = 2 → d o1 o2 = 1 → d p1 p3 = 4 → d o1 o3 = 2 →
      d p2 p3 = 4 → d o2 o3 = 2 →
      (ComplexDistanceReward.calc_dist_diff d ⟨some (p1, p2, p3)⟩
        o1 o2 o3).1 = 6) := by
  refine ⟨rfl, ?_⟩
  intro e12 c12 e13 c13 e23 c23
  simp [ComplexDistanceReward.calc_dist_diff, e12, c12, e13, c13, e23, c23]
  norm_num

/-- C6 witness: a concrete three-object configuration realising the
`2,1,4,2,4,2` distance scenario returns reward 6. -/
theorem C6_witness :
    (ComplexDistanceReward.calc_dist_diff dL1
      ⟨some ((0, 0, 0), (2, 0, 0), (1, 2, 1))⟩
      (0, 0, 0) (1, 0, 0) (1/2, 3/2, 0)).1 = 6 := by
  have h := C6_calc_dist_diff dL1 (0, 0, 0) (1, 0, 0) (1/2, 3/2, 0)
    (0, 0, 0) (2, 0, 0) (1, 2, 1) (by norm_num [dL1, qabs])
    (by norm_num [dL1, qabs]) (by norm_num [dL1, qabs])
  exact h.2 (by norm_num [dL1, qabs]) (by norm_num [dL1, qabs])
    (by norm_num [dL1, qabs]) (by norm_num [dL1, qabs])
    (by norm_num [dL1, qabs]) (by norm_num [dL1, qabs])

/-- C10: for every internal state (`touched` flag) and every observation
(`is_aimed` predicate value), `DualPoke.decide` returns owner 0 (aim) or
owner 1 (poke) — the two branch conditions are exhaustive — and therefore
`DualPoke.compute` always dispatches to `aimer_compute` or `poker_compute`
and returns a reward: the `exit("decision error")` branch (the `none` case)
is unreachable. -/
theorem C10_decide_exhaustive :
    (∀ touched is_aimed : Bool,
      DualPoke.decide touched is_aimed = some 0 ∨
      DualPoke.decide touched is_aimed = some 1) ∧
    (∀ (d : Pos → Pos → ℚ) (s : DPState) (f : EnvFlags) (goal poker : Pos)
      (is_aimed : Bool) (aimer_dist : ℚ) (episode_steps : ℕ)
      (object_moved : Bool),
      (DualPoke.compute d s f goal poker is_aimed aimer_dist episode_steps
        object_moved).isSome = true) := by
  constructor
  · intro touched is_aimed
    cases touched <;> cases is_aimed <;> simp [DualPoke.decide]
  · intro d s f goal poker is_aimed aimer_dist episode_steps object_moved
    cases hT : s.touched <;> cases is_aimed <;>
      simp [DualPoke.compute, DualPoke.decide, hT]

/-- C2 (counterexample): a reachable three-step `ConsequentialPickAndPlace`
episode (object gripped at step 1, moved above the goal at step 2, moved
away again at step 3).  Step 3 is a transition into the move phase
(owner 1, previous owner 2 = place), yet the returned move-phase component
reward is `4`, not `0`: the move baseline guard tests `last_owner != 2`
(the owner id copied from the four-phase class), which is false when coming
from place, so the stale baseline from step 1 leaks into the new phase. -/
theorem C2_counterexample :
    ConsequentialPickAndPlace.trace dL1 PnPState.reset {}
      [((0, 5, 0), (0, 0, 1/100), (0, 0, 0)),
       ((0, 5, 0), (0, 5, 1/100), (0, 5, 0)),
       ((0, 5, 0), (0, 6, 1/100), (0, 6, 0))] =
      [(0, some 1), (0, some 2), (4, some 1)] ∧
    ((4:ℚ) ≠ 0) := by
  constructor
  · norm_num [ConsequentialPickAndPlace.trace,
      ConsequentialPickAndPlace.compute, ConsequentialPickAndPlace.decide,
      ConsequentialPickAndPlace.gripper_reached_object,
      ConsequentialPickAndPlace.object_above_goal,
      ConsequentialPickAndPlace.find_compute,
      ConsequentialPickAndPlace.move_compute,
      ConsequentialPickAndPlace.place_compute,
      PnPState.reset, dL1, qabs]
  · norm_num

/-- C2 (amended): on a compute call whose owner differs from the stored
`last_owner`, the phase's baseline is re-set and the component reward is
exactly 0 for: DualPoke's aim phase (id 0); DualPoke's poke phase (id 1)
provided the external too-strong-poke check does not fire on that step;
all four `PickAndPlace` phases (ids 0-3); and `ConsequentialPickAndPlace`'s
find phase (id 0).  `ConsequentialPickAndPlace`'s move and place functions
instead re-baseline exactly when `last_owner` differs from 2 resp. 3 (owner
ids copied from the four-phase class): this still gives reward 0 on a
transition into move from find, and on every reachable place call, but NOT
on a transition into move from place (see `C2_counterexample`). -/
theorem C2_transition_reward_amended (d : Pos → Pos → ℚ)
    (sa sb : DPState) (f : EnvFlags) (goal poker : Pos) (aimer_dist : ℚ)
    (episode_steps : ℕ) (s1 s2 s3 s4 s5 s6 s7 : PnPState)
    (gripper object : Pos)
    (ha : sa.last_owner ≠ some 0)
    (hb : sb.last_owner ≠ some 1)
    (h1 : s1.last_owner ≠ some 0)
    (h2 : s2.last_owner ≠ some 1)
    (h3 : s3.last_owner ≠ some 2)
    (h4 : s4.last_owner ≠ some 3)
    (h5 : s5.last_owner ≠ some 0)
    (h6 : s6.last_owner ≠ some 2)
    (h7 : s7.last_owner ≠ some 3) :
    (DualPoke.aimer_compute sa aimer_dist poker episode_steps).1 = 0 ∧
    (DualPoke.poker_compute d sb f goal poker false).1 = 0 ∧
    (PickAndPlace.find_compute d s1 gripper object).1 = 0 ∧
    (PickAndPlace.lift_compute d s2 object).1 = 0 ∧
    (PickAndPlace.move_compute d s3 object goal).1 = 0 ∧
    (PickAndPlace.place_compute d s4 f object goal).1 = 0 ∧
    (ConsequentialPickAndPlace.find_compute d s5 gripper object).1 = 0 ∧
    (ConsequentialPickAndPlace.move_compute d s6 object goal).1 = 0 ∧
    (ConsequentialPickAndPlace.place_compute d s7 f object goal).1 = 0 := by
  refine ⟨?_, ?_, ?_, ?_, ?_, ?_, ?_, ?_, ?_⟩
  · simp only [DualPoke.aimer_compute]
    rw [if_pos ha]
    exact sub_self aimer_dist
  · simp only [DualPoke.poker_compute, if_pos hb]
    norm_num
  · simp only [PickAndPlace.find_compute, if_pos h1]
    exact sub_self (d gripper object)
  · simp only [PickAndPlace.lift_compute, if_pos h2]
    exact sub_self (d object object)
  · simp only [PickAndPlace.move_compute, if_pos h3]
    simp
  · simp only [PickAndPlace.place_compute, if_pos h4]
    exact sub_self (d object goal)
  · simp only [ConsequentialPickAndPlace.find_compute, if_pos h5]
    exact sub_self (d gripper object)
  · simp only [ConsequentialPickAndPlace.move_compute, if_pos h6]
    simp
  · simp only [ConsequentialPickAndPlace.place_compute, if_pos h7]
    exact sub_self (d object goal)

/-- C2 witness: all nine transition rewards of the amended claim evaluate to
0 on freshly-reset states (`last_owner = none`, so every call is a
transition) and concrete positions. -/
theorem C2_witness :
    (DualPoke.aimer_compute DualPoke.resetState 3 (1, 0, 0) 0).1 = 0 ∧
    (DualPoke.poker_compute dL1 DualPoke.resetState {} (0, 2, 0) (1, 0, 0)
      false).1 = 0 ∧
    (PickAndPlace.find_compute dL1 PnPState.reset (0, 0, 0)
      (1, 0, 0)).1 = 0 ∧
    (PickAndPlace.lift_compute dL1 PnPState.reset (1, 0, 0)).1 = 0 ∧
    (PickAndPlace.move_compute dL1 PnPState.reset (1, 0, 0)
      (0, 2, 0)).1 = 0 ∧
    (PickAndPlace.place_compute dL1 PnPState.reset {} (1, 0, 0)
      (0, 2, 0)).1 = 0 ∧
    (ConsequentialPickAndPlace.find_compute dL1 PnPState.reset (0, 0, 0)
      (1, 0, 0)).1 = 0 ∧
    (ConsequentialPickAndPlace.move_compute dL1 PnPState.reset (1, 0, 0)
      (0, 2, 0)).1 = 0 ∧
    (ConsequentialPickAndPlace.place_compute dL1 PnPState.reset {} (1, 0, 0)
      (0, 2, 0)).1 = 0 :=
  C2_transition_reward_amended dL1 DualPoke.resetState DualPoke.resetState
    {} (0, 2, 0) (1, 0, 0) 3 0 PnPState.reset PnPState.reset PnPState.reset
    PnPState.reset PnPState.reset PnPState.reset PnPState.reset
    (0, 0, 0) (1, 0, 0)
    (by simp [DualPoke.resetState]) (by simp [DualPoke.resetState])
    (by simp [PnPState.reset]) (by simp [PnPState.reset])
    (by simp [PnPState.reset]) (by simp [PnPState.reset])
    (by simp [PnPState.reset]) (by simp [PnPState.reset])
    (by simp [PnPState.reset])

/-- C3 (counterexample): in the same reachable three-step episode as
`C2_counterexample`, the owner sequence produced by `decide` over successive
`compute` calls is `1, 2, 1`: the owner falls back from 2 (place) to
1 (move) when the object leaves the above-goal region, because
`object_above_goal` is re-evaluated every call and nothing latches it.
This refutes the claim that the owner sequence is non-decreasing within an
episode. -/
theorem C3_counterexample :
    (ConsequentialPickAndPlace.trace dL1 PnPState.reset {}
      [((0, 5, 0), (0, 0, 1/100), (0, 0, 0)),
       ((0, 5, 0), (0, 5, 1/100), (0, 5, 0)),
       ((0, 5, 0), (0, 6, 1/100), (0, 6, 0))]).map Prod.snd =
      [some 1, some 2, some 1] ∧
    ¬ List.Chain' (fun a b : Option ℕ => a.getD 0 ≤ b.getD 0)
      [some 1, some 2, some 1] := by
  constructor
  · norm_num [ConsequentialPickAndPlace.trace,
      ConsequentialPickAndPlace.compute, ConsequentialPickAndPlace.decide,
      ConsequentialPickAndPlace.gripper_reached_object,
      ConsequentialPickAndPlace.object_above_goal,
      ConsequentialPickAndPlace.find_compute,
      ConsequentialPickAndPlace.move_compute,
      ConsequentialPickAndPlace.place_compute,
      PnPState.reset, dL1, qabs]
  · simp [List.chain'_cons]

/-- C3 (amended): for `ConsequentialPickAndPlace.decide`: the owner is
always one of 0, 1, 2; the owner is at least 1 exactly when the gripper has
reached the object (grip latched earlier, or distance below 0.1 now, which
latches the grip); the grip latch persists through `decide`, so once the
strategy has gripped the owner can never fall back to 0; and the owner is 2
exactly when additionally the object is above the goal.  Because the
above-goal test is re-evaluated every step and never latched, the owner can
fall from 2 back to 1 (see `C3_counterexample`), so the original
never-decreases claim fails; everything else of the claim holds. -/
theorem C3_owner_amended (d : Pos → Pos → ℚ) (s : PnPState)
    (goal object gripper : Pos) :
    (ConsequentialPickAndPlace.decide d s goal object gripper).1 ≤ 2 ∧
    (s.grip = true →
      1 ≤ (ConsequentialPickAndPlace.decide d s goal object gripper).1 ∧
      (ConsequentialPickAndPlace.decide d s goal object gripper).2.grip =
        true) ∧
    (1 ≤ (ConsequentialPickAndPlace.decide d s goal object gripper).1 ↔
      (s.grip = true ∨ d gripper object < 1/10)) ∧
    ((ConsequentialPickAndPlace.decide d s goal object gripper).1 = 2 ↔
      ((s.grip = true ∨ d gripper object < 1/10) ∧
        ConsequentialPickAndPlace.object_above_goal d object goal = true)) := by
  cases hg : s.grip with
  | true =>
    cases hab : ConsequentialPickAndPlace.object_above_goal d object goal with
    | true =>
      simp [ConsequentialPickAndPlace.decide,
        ConsequentialPickAndPlace.gripper_reached_object, hg, hab]
    | false =>
      simp [ConsequentialPickAndPlace.decide,
        ConsequentialPickAndPlace.gripper_reached_object, hg, hab]
  | false =>
    by_cases hd : d gripper object < 1/10
    · rw [one_div] at hd
      cases hab : ConsequentialPickAndPlace.object_above_goal d object goal
        with
      | true =>
        simp [ConsequentialPickAndPlace.decide,
          ConsequentialPickAndPlace.gripper_reached_object, hg, hd, hab]
      | false =>
        simp [ConsequentialPickAndPlace.decide,
          ConsequentialPickAndPlace.gripper_reached_object, hg, hd, hab]
    · rw [one_div] at hd
      simp [ConsequentialPickAndPlace.decide,
        ConsequentialPickAndPlace.gripper_reached_object, hg, hd]

/-- C3 witness: on a concrete gripped state and concrete positions with the
object above the goal, `decide` returns owner 2, keeps the grip latched, and
both characterisations hold. -/
theorem C3_witness :
    (ConsequentialPickAndPlace.decide dL1
      { PnPState.reset with grip := true } (0, 5, 0) (0, 5, 1/100)
      (0, 5, 0)).1 ≤ 2 ∧
    (1 ≤ (ConsequentialPickAndPlace.decide dL1
      { PnPState.reset with grip := true } (0, 5, 0) (0, 5, 1/100)
      (0, 5, 0)).1 ∧
     (ConsequentialPickAndPlace.decide dL1
      { PnPState.reset with grip := true } (0, 5, 0) (0, 5, 1/100)
      (0, 5, 0)).2.grip = true) := by
  have h := C3_owner_amended dL1 { PnPState.reset with grip := true }
    (0, 5, 0) (0, 5, 1/100) (0, 5, 0)
  exact ⟨h.1, h.2.1 rfl⟩

/-- C8: evaluation at the failing input.  In the state
`placePhaseStuckState` the strategy is in the terminal place phase and the
object-to-goal distance is `1/100 < 0.05`, yet `compute` returns with the
episode flags untouched: the state is reproduced exactly (owner 2, place
phase again) and `episode_over` remains `false` with no success message,
because the success branch of `place_compute` tests `last_owner == 3`, an
owner id `ConsequentialPickAndPlace.decide` never produces.  The claim says
this step must set `episode_over` with info
"Object was placed to desired position". -/
theorem C8_place_success_dead :
    ConsequentialPickAndPlace.compute dL1 placePhaseStuckState {}
      (0, 5, 0) (0, 5, 1/100) (0, 5, 0) =
      some (0, placePhaseStuckState, {}) ∧
    dL1 (0, 5, 1/100) (0, 5, 0) < 1/20 ∧
    ({} : EnvFlags).episode_over = false ∧
    ({} : EnvFlags).episode_info ≠ "Object was placed to desired position" := by
  refine ⟨?_, by norm_num [dL1, qabs], rfl, by decide⟩
  norm_num [ConsequentialPickAndPlace.compute,
    ConsequentialPickAndPlace.decide,
    ConsequentialPickAndPlace.gripper_reached_object,
    ConsequentialPickAndPlace.object_above_goal,
    ConsequentialPickAndPlace.place_compute,
    placePhaseStuckState, PnPState.reset, dL1, qabs]

theorem contact_loop_touches_le (ps : List Bool) (r : ℚ) (t : ℕ)
    (f : EnvFlags) : t ≤ (contact_loop ps r t f).touches := by
  induction ps generalizing r t f with
  | nil => simp [contact_loop]
  | cons p rest ih =>
    cases p with
    | true =>
      by_cases h : t + 1 > 20
      · simp [contact_loop, h]
      · simpa [contact_loop, h] using le_trans (Nat.le_succ t) (ih (-5) (t+1) f)
    | false => simpa [contact_loop] using ih r t f

theorem contact_loop_no_contact (ps : List Bool) (r : ℚ) (t : ℕ)
    (f : EnvFlags) (h : ∀ p ∈ ps, p = false) :
    contact_loop ps r t f = ⟨r, t, f, false⟩ := by
  induction ps with
  | nil => simp [contact_loop]
  | cons p rest ih =>
    have hp : p = false := h p (List.mem_cons_self p rest)
    have hrest : ∀ q ∈ rest, q = false := fun q hq => h q (List.mem_cons_of_mem p hq)
    simp [contact_loop, hp, ih hrest]

/-- C9: for the `VectorReward` contact scan, starting from a persistent
counter value `t ≤ 20` (any larger value would already have ended the
episode): (i) if any link is in contact the counter strictly increases;
(ii) if the cumulative count `t + #touching links` exceeds 20 the scan
stops at exactly 21 touches and terminates the episode as a failure —
`episode_over` and `episode_failed` set, `episode_info` equal to
"Arm crushed the distractor" — returning reward `-5` immediately. -/
theorem C9_contact_threshold (ps : List Bool) (t : ℕ) (f : EnvFlags)
    (ht : t ≤ 20) :
    (1 ≤ ps.count true → t < (contact_loop ps 0 t f).touches) ∧
    (20 < t + ps.count true →
      (contact_loop ps 0 t f).returned = true ∧
      (contact_loop ps 0 t f).touches = 21 ∧
      (contact_loop ps 0 t f).reward = -5 ∧
      (contact_loop ps 0 t f).flags.episode_over = true ∧
      (contact_loop ps 0 t f).flags.episode_failed = true ∧
      (contact_loop ps 0 t f).flags.episode_info =
        "Arm crushed the distractor") := by
  constructor
  · intro hcount
    -- the reward argument plays no role; prove a general statement first
    suffices hgen : ∀ (ps : List Bool) (r : ℚ) (t : ℕ) (f : EnvFlags),
        1 ≤ ps.count true → t < (contact_loop ps r t f).touches by
      exact hgen ps 0 t f hcount
    intro ps
    induction ps with
    | nil => intro r t f hc; simp at hc
    | cons p rest ih =>
      intro r t f hc
      cases p with
      | true =>
        by_cases h : t + 1 > 20
        · simp [contact_loop, h]
        · have hle := contact_loop_touches_le rest (-5) (t+1) f
          simp only [contact_loop, if_true, h, if_false]
          exact lt_of_lt_of_le (Nat.lt_succ_self t) hle
      | false =>
        have hc' : 1 ≤ rest.count true := by
          simpa [List.count_cons] using hc
        simpa [contact_loop] using ih r t f hc'
  · -- general form over the loop-carried reward argument
    suffices hgen : ∀ (ps : List Bool) (r : ℚ) (t : ℕ) (f : EnvFlags),
        t ≤ 20 → 20 < t + ps.count true →
        (contact_loop ps r t f).returned = true ∧
        (contact_loop ps r t f).touches = 21 ∧
        (contact_loop ps r t f).reward = -5 ∧
        (contact_loop ps r t f).flags.episode_over = true ∧
        (contact_loop ps r t f).flags.episode_failed = true ∧
        (contact_loop ps r t f).flags.episode_info =
          "Arm crushed the distractor" by
      exact fun h => hgen ps 0 t f ht h
    intro ps
    induction ps with
    | nil =>
      intro r t f ht hcount
      simp [List.count_nil] at hcount
      omega
    | cons p rest ih =>
      intro r t f ht hcount
      cases p with
      | true =>
        by_cases h : t + 1 > 20
        · have ht21 : t + 1 = 21 := by omega
          simp [contact_loop, h, ht21]
        · have hc2 : 20 < t + 1 + rest.count true := by
            have hc3 := hcount
            simp [List.count_cons] at hc3
            omega
          have hrec := ih (-5) (t+1) f (by omega) hc2
          simpa [contact_loop, h] using hrec
      | false =>
        have hcount' : 20 < t + rest.count true := by
          simpa [List.count_cons] using hcount
        simpa [contact_loop] using ih r t f ht hcount'

/-- C9 witness: with 20 accumulated touches, a single link contact (the
21st) terminates the episode with the failure flags and message. -/
theorem C9_witness :
    20 < (contact_loop [true] 0 20 ({} : EnvFlags)).touches ∧
    (contact_loop [true] 0 20 ({} : EnvFlags)).returned = true ∧
    (contact_loop [true] 0 20 ({} : EnvFlags)).touches = 21 ∧
    (contact_loop [true] 0 20 ({} : EnvFlags)).reward = -5 ∧
    (contact_loop [true] 0 20 ({} : EnvFlags)).flags.episode_over = true ∧
    (contact_loop [true] 0 20 ({} : EnvFlags)).flags.episode_failed = true ∧
    (contact_loop [true] 0 20 ({} : EnvFlags)).flags.episode_info =
      "Arm crushed the distractor" := by
  have h := C9_contact_threshold [true] 20 {} (by norm_num)
  have h2 := h.2 (by simp)
  exact ⟨h.1 (by simp), h2⟩

theorem dotQ_self_nonneg (v : Vec3Q) : 0 ≤ dotQ v v := by
  unfold dotQ
  nlinarith [sq_nonneg v.1, sq_nonneg v.2.1, sq_nonneg v.2.2]

theorem dotR_smulR (a b : ℝ) (u w : Vec3R) :
    dotR (smulR a u) (smulR b w) = a * b * dotR u w := by
  simp only [dotR, smulR]
  ring

theorem dotR_toR (v w : Vec3Q) :
    dotR (toR v) (toR w) = ((dotQ v w : ℚ) : ℝ) := by
  simp only [dotR, toR, dotQ]
  push_cast
  ring

theorem smulR_smulR (a b : ℝ) (u : Vec3R) :
    smulR a (smulR b u) = smulR (a * b) u := by
  simp only [smulR]
  ring_nf

theorem cauchy_schwarz_dotQ (v w : Vec3Q) :
    (dotQ v w)^2 ≤ dotQ v v * dotQ w w := by
  unfold dotQ
  nlinarith [sq_nonneg (v.1 * w.2.1 - v.2.1 * w.1),
    sq_nonneg (v.1 * w.2.2 - v.2.2 * w.1),
    sq_nonneg (v.2.1 * w.2.2 - v.2.2 * w.2.1)]

/-- Evaluation helper: the square root of a rational that is the square of
a non-negative real. -/
theorem sqrt_of_rat_sq (q : ℝ) (hq : 0 ≤ q) (r : ℚ) (h : ((r:ℚ):ℝ) = q^2) :
    Real.sqrt ((r:ℚ):ℝ) = q := by
  rw [h, Real.sqrt_sq hq]

/-- C7: `set_vector_len(v, L)`: (i) for every `v` of norm 0 (equivalently
`np.dot(v,v) = 0`) the call fails with a division-by-zero error (result
`none`); (ii) for every `v` of nonzero norm the result `w` has norm `|L|`,
and is a positive multiple of `v` when `L > 0` and a negative one when
`L < 0` (direction preserved resp. reversed). -/
theorem C7_set_vector_len (v : Vec3Q) (L : ℚ) :
    (dotQ v v = 0 → set_vector_len v L none) ∧
    (∀ w : Vec3R, dotQ v v ≠ 0 → set_vector_len v L (some w) →
      Real.sqrt (dotR w w) = |(L : ℝ)| ∧
      (0 < L → ∃ c : ℝ, 0 < c ∧ w = smulR c (toR v)) ∧
      (L < 0 → ∃ c : ℝ, c < 0 ∧ w = smulR c (toR v))) := by
  constructor
  · intro h
    simp [set_vector_len, h]
  · intro w hne hset
    rw [set_vector_len, if_neg hne] at hset
    obtain ⟨n, hn, hw⟩ := hset
    rw [Option.some_inj] at hw
    have hQpos : (0:ℚ) < dotQ v v :=
      lt_of_le_of_ne (dotQ_self_nonneg v) (Ne.symm hne)
    have hRpos : (0:ℝ) < ((dotQ v v : ℚ) : ℝ) := by exact_mod_cast hQpos
    have hnpos : 0 < n := by
      rw [hn]
      exact Real.sqrt_pos.mpr hRpos
    have hn2 : n ^ 2 = ((dotQ v v : ℚ) : ℝ) := by
      rw [hn]
      exact Real.sq_sqrt (le_of_lt hRpos)
    have hdot : dotR w w = ((L:ℝ))^2 := by
      rw [hw, dotR_smulR, dotR_smulR, dotR_toR]
      field_simp
      rw [← hn2]
      ring
    constructor
    · rw [hdot, Real.sqrt_sq_eq_abs]
    constructor
    · intro hL
      refine ⟨(L:ℝ) * (1/n), ?_, ?_⟩
      · have : (0:ℝ) < (L:ℝ) := by exact_mod_cast hL
        positivity
      · rw [hw, smulR_smulR]
    · intro hL
      refine ⟨(L:ℝ) * (1/n), ?_, ?_⟩
      · have hLR : (L:ℝ) < 0 := by exact_mod_cast hL
        have : 0 < 1/n := by positivity
        exact mul_neg_of_neg_of_pos hLR this
      · rw [hw, smulR_smulR]

/-- C7 witness: the zero vector fails; the vector `(0, 2, 0)` of norm 2
rescaled to length `L = 1` yields `(0, 1, 0)`, which has norm 1 and is a
positive multiple of the input. -/
theorem C7_witness :
    set_vector_len (0, 0, 0) 1 none ∧
    Real.sqrt (dotR ((0:ℝ), 1, 0) ((0:ℝ), 1, 0)) = |((1:ℚ):ℝ)| ∧
    (∃ c : ℝ, 0 < c ∧ ((0:ℝ), 1, 0) = smulR c (toR (0, 2, 0))) := by
  have hz := (C7_set_vector_len (0, 0, 0) 1).1 (by norm_num [dotQ])
  have hset : set_vector_len (0, 2, 0) 1 (some ((0:ℝ), 1, 0)) := by
    rw [set_vector_len, if_neg (by norm_num [dotQ])]
    refine ⟨2, ?_, ?_⟩
    · rw [count_vector_norm_is]
      symm
      exact sqrt_of_rat_sq 2 (by norm_num) (dotQ (0, 2, 0) (0, 2, 0))
        (by norm_num [dotQ])
    · simp [smulR, toR]
  have h := (C7_set_vector_len (0, 2, 0) 1).2 ((0:ℝ), 1, 0)
    (by norm_num [dotQ]) hset
  exact ⟨hz, h.1, h.2.1 (by norm_num)⟩

/-- C5 (counterexample): a compute call with one link in contact with the
distractor (touches counter 0, so no early termination) and zero gripper
displacement returns `-5`, not `0`: the contact branch sets `reward = -5`
before the cosine stage, refuting both the claimed equality ("0 when the
real vector has zero norm") and the claimed `[-1, 1]` bound. -/
theorem C5_counterexample :
    vectorReward_reward [true] 0 {} (1, 0, 0) (0, 0, 0) (-5) ∧
    ((-5:ℝ) ≠ 0) ∧ ¬(-1 ≤ (-5:ℝ) ∧ (-5:ℝ) ≤ 1) := by
  refine ⟨?_, by norm_num, by norm_num⟩
  rw [vectorReward_reward]
  norm_num [contact_loop, dotQ]

/-- C5 (amended): on every `VectorReward.compute` call in which no link is
in contact with the distractor (so the contact scan leaves the reward at 0)
and the optimal vector is nonzero (the source would raise
`ZeroDivisionError` otherwise): the returned reward is 0 when the real
displacement has zero norm, equals
`dot(optimal, real) / (‖optimal‖ * ‖real‖)` — the cosine similarity
`dot(normalize(optimal), normalize(real))` — when it has nonzero norm, and
is always within `[-1, 1]`.  With a contact the reward is offset by `-5`
(see `C5_counterexample`). -/
theorem C5_cosine_amended (contacts : List Bool) (touches : ℕ)
    (f : EnvFlags) (optimal real : Vec3Q) (x : ℝ)
    (hnc : ∀ p ∈ contacts, p = false)
    (ho : dotQ optimal optimal ≠ 0)
    (hx : vectorReward_reward contacts touches f optimal real x) :
    (dotQ real real = 0 → x = 0) ∧
    (dotQ real real ≠ 0 →
      x = ((dotQ optimal real : ℚ) : ℝ) /
        (Real.sqrt ((dotQ optimal optimal : ℚ) : ℝ) *
         Real.sqrt ((dotQ real real : ℚ) : ℝ))) ∧
    (-1 ≤ x ∧ x ≤ 1) := by
  rw [vectorReward_reward] at hx
  rw [contact_loop_no_contact contacts 0 touches f hnc] at hx
  simp only at hx
  by_cases hr : dotQ real real = 0
  · rw [if_pos hr] at hx
    push_cast at hx
    simp at hx
    subst hx
    refine ⟨fun _ => rfl, fun h => absurd hr h, by norm_num, by norm_num⟩
  · rw [if_neg hr] at hx
    obtain ⟨uo, ur, hso, hsr, hxval⟩ := hx
    rw [set_vector_len, if_neg ho] at hso
    rw [set_vector_len, if_neg hr] at hsr
    obtain ⟨no, hno, huo⟩ := hso
    obtain ⟨nr, hnr, hur⟩ := hsr
    rw [Option.some_inj] at huo hur
    have hOpos : (0:ℝ) < ((dotQ optimal optimal : ℚ) : ℝ) := by
      have : (0:ℚ) < dotQ optimal optimal :=
        lt_of_le_of_ne (dotQ_self_nonneg optimal) (Ne.symm ho)
      exact_mod_cast this
    have hRpos : (0:ℝ) < ((dotQ real real : ℚ) : ℝ) := by
      have : (0:ℚ) < dotQ real real :=
        lt_of_le_of_ne (dotQ_self_nonneg real) (Ne.symm hr)
      exact_mod_cast this
    have hnopos : 0 < no := by rw [hno]; exact Real.sqrt_pos.mpr hOpos
    have hnrpos : 0 < nr := by rw [hnr]; exact Real.sqrt_pos.mpr hRpos
    have hno2 : no ^ 2 = ((dotQ optimal optimal : ℚ) : ℝ) := by
      rw [hno]; exact Real.sq_sqrt (le_of_lt hOpos)
    have hnr2 : nr ^ 2 = ((dotQ real real : ℚ) : ℝ) := by
      rw [hnr]; exact Real.sq_sqrt (le_of_lt hRpos)
    have hxv : x = ((dotQ optimal real : ℚ) : ℝ) / (no * nr) := by
      rw [hxval, huo, hur, dotR_smulR, dotR_smulR, dotR_toR]
      push_cast
      field_simp
    have hmain : x = ((dotQ optimal real : ℚ) : ℝ) /
        (Real.sqrt ((dotQ optimal optimal : ℚ) : ℝ) *
         Real.sqrt ((dotQ real real : ℚ) : ℝ)) := by
      rw [hxv, hno, hnr]
    refine ⟨fun h => absurd h hr, fun _ => hmain, ?_, ?_⟩
    all_goals
      have hcs : (((dotQ optimal real : ℚ) : ℝ))^2 ≤
          ((dotQ optimal optimal : ℚ) : ℝ) * ((dotQ real real : ℚ) : ℝ) := by
        exact_mod_cast cauchy_schwarz_dotQ optimal real
      have hx2 : x^2 ≤ 1 := by
        rw [hxv]
        rw [div_pow]
        rw [div_le_one (by positivity)]
        calc (((dotQ optimal real : ℚ) : ℝ))^2 ≤
            ((dotQ optimal optimal : ℚ) : ℝ) * ((dotQ real real : ℚ) : ℝ) :=
              hcs
          _ = (no * nr)^2 := by rw [mul_pow, hno2, hnr2]
      have habs : |x| ≤ 1 := (sq_le_one_iff_abs_le_one x).mp hx2
      have hpair := abs_le.mp habs
      first
        | exact hpair.1
        | exact hpair.2

/-- C5 witness: a contact-free call with `optimal = (1,0,0)` and
`real = (3,0,0)` (parallel vectors) returns reward 1, which lies in
`[-1, 1]`. -/
theorem C5_witness :
    vectorReward_reward [false] 0 {} (1, 0, 0) (3, 0, 0) 1 ∧
    (-1 ≤ (1:ℝ) ∧ (1:ℝ) ≤ 1) := by
  have hso : set_vector_len (1, 0, 0) 1 (some ((1:ℝ), 0, 0)) := by
    rw [set_vector_len, if_neg (by norm_num [dotQ])]
    refine ⟨1, ?_, ?_⟩
    · rw [count_vector_norm_is]
      symm
      exact sqrt_of_rat_sq 1 (by norm_num) (dotQ (1, 0, 0) (1, 0, 0))
        (by norm_num [dotQ])
    · simp [smulR, toR]
  have hsr : set_vector_len (3, 0, 0) 1 (some ((1:ℝ), 0, 0)) := by
    rw [set_vector_len, if_neg (by norm_num [dotQ])]
    refine ⟨3, ?_, ?_⟩
    · rw [count_vector_norm_is]
      symm
      exact sqrt_of_rat_sq 3 (by norm_num) (dotQ (3, 0, 0) (3, 0, 0))
        (by norm_num [dotQ])
    · simp [smulR, toR]
  have hx : vectorReward_reward [false] 0 {} (1, 0, 0) (3, 0, 0) 1 := by
    rw [vectorReward_reward,
      contact_loop_no_contact [false] 0 0 {} (by simp)]
    simp only
    rw [if_neg (by norm_num), if_neg (by norm_num [dotQ])]
    exact ⟨(1, 0, 0), (1, 0, 0), hso, hsr, by norm_num [dotR]⟩
  have h := C5_cosine_amended [false] 0 {} (1, 0, 0) (3, 0, 0) 1
    (by simp) (by norm_num [dotQ]) hx
  exact ⟨hx, h.2.2⟩
